import Mathlib

/-!
# Verification of werkzeug context-local storage and sessions

A shallow embedding of `werkzeug/local.py` and `werkzeug/contrib/sessions.py`
(the t11e/werkzeug repository), together with proofs settling the frozen
claims about those modules.

Python dictionaries are modelled as association lists with first-match
lookup; mutation becomes explicit state passing; a Python method that can
raise returns `Except`.  Identities produced by `get_ident()` are opaque
comparable values, modelled as `Nat`.
-/

namespace Werkzeug

/-- Errors a modelled Python operation can signal. -/
inductive PyError where
  | attributeError (name : String)
  | keyError
  | typeError
deriving DecidableEq, Repr

section Dict

variable {K : Type} {V : Type} [DecidableEq K]

/-- Lookup in a Python-dict model (association list, first match wins):
`d[k]` as an `Option`. -/
def dictGet : List (K × V) → K → Option V
  | [], _ => none
  | (k', v) :: rest, k => if k' = k then some v else dictGet rest k

/-- `d[k] = v`: replace the first binding of `k`, or append a fresh one. -/
def dictSet : List (K × V) → K → V → List (K × V)
  | [], k, v => [(k, v)]
  | (k', v') :: rest, k, v =>
      if k' = k then (k, v) :: rest else (k', v') :: dictSet rest k v

/-- `del d[k]` / `d.pop(k, None)`: drop every binding of `k`
(states reachable through `dictSet` carry at most one). -/
def dictErase : List (K × V) → K → List (K × V)
  | [], _ => []
  | (k', v') :: rest, k =>
      if k' = k then dictErase rest k else (k', v') :: dictErase rest k

theorem dictGet_dictSet (d : List (K × V)) (k k' : K) (v : V) :
    dictGet (dictSet d k v) k' = if k = k' then some v else dictGet d k' := by
  induction d with
  | nil => simp [dictSet, dictGet]
  | cons hd tl ih =>
      obtain ⟨k₀, v₀⟩ := hd
      by_cases h₀ : k₀ = k
      · subst h₀
        by_cases h₁ : k₀ = k'
        · subst h₁; simp [dictSet, dictGet]
        · simp [dictSet, dictGet, h₁]
      · by_cases h₁ : k₀ = k'
        · subst h₁
          simp [dictSet, dictGet, h₀, Ne.symm h₀]
        · simp [dictSet, dictGet, h₀, h₁, ih]

theorem dictGet_dictErase (d : List (K × V)) (k k' : K) :
    dictGet (dictErase d k) k' = if k = k' then none else dictGet d k' := by
  induction d with
  | nil => simp [dictErase, dictGet]
  | cons hd tl ih =>
      obtain ⟨k₀, v₀⟩ := hd
      by_cases h₀ : k₀ = k
      · subst h₀
        by_cases h₁ : k₀ = k'
        · subst h₁; simp [dictErase, dictGet, ih]
        · simp [dictErase, dictGet, h₁, ih]
      · by_cases h₁ : k₀ = k'
        · subst h₁
          simp [dictErase, dictGet, h₀, Ne.symm h₀, ih]
        · simp [dictErase, dictGet, h₀, h₁, ih]

theorem dictErase_of_dictGet_none (d : List (K × V)) (k : K)
    (h : dictGet d k = none) : dictErase d k = d := by
  induction d with
  | nil => rfl
  | cons hd tl ih =>
      obtain ⟨k₀, v₀⟩ := hd
      by_cases h₀ : k₀ = k
      · subst h₀; simp [dictGet] at h
      · simp [dictGet, h₀] at h
        simp [dictErase, h₀, ih h]

theorem dictErase_dictErase (d : List (K × V)) (k : K) :
    dictErase (dictErase d k) k = dictErase d k := by
  refine dictErase_of_dictGet_none _ _ ?_
  rw [dictGet_dictErase]
  simp

end Dict

/-! ## `werkzeug.local`: Local (ContextRegistry)

From `src/werkzeug/local.py`.  The per-instance mutex only serializes the
map operations; the embedding makes each operation an atomic function of
the registry state.  `get_ident()` values are opaque `Nat`s. -/

/-- An execution identity, as returned by `get_ident()`. -/
abbrev Ident := Nat

/-- An attribute name. -/
abbrev Name := String

/-- `Local.__dict__['__storage']`: identity -> private attribute namespace. -/
structure Local (α : Type) where
  storage : List (Ident × List (Name × α))
deriving DecidableEq

namespace Local

/-- `Local.__getattr__`: looks up the current identity's namespace, then the
name inside it; absence at either level raises `AttributeError(name)`. -/
def getattr (l : Local α) (ident : Ident) (name : Name) : Except PyError α :=
  match dictGet l.storage ident with
  | none => Except.error (PyError.attributeError name)
  | some ns =>
      match dictGet ns name with
      | none => Except.error (PyError.attributeError name)
      | some v => Except.ok v

/-- `Local.__setattr__`: updates the identity's namespace in place, creating
a singleton namespace when the identity has none yet. -/
def setattr (l : Local α) (ident : Ident) (name : Name) (v : α) : Local α :=
  match dictGet l.storage ident with
  | some ns => ⟨dictSet l.storage ident (dictSet ns name v)⟩
  | none => ⟨dictSet l.storage ident [(name, v)]⟩

/-- `Local.__delattr__`: `del storage[ident][name]`, with a missing identity
or a missing name surfacing as `AttributeError(name)`.  Only the inner
namespace entry is removed; the identity's (possibly now empty) namespace
stays in the storage dict. -/
def delattr (l : Local α) (ident : Ident) (name : Name) :
    Except PyError (Local α) :=
  match dictGet l.storage ident with
  | none => Except.error (PyError.attributeError name)
  | some ns =>
      match dictGet ns name with
      | none => Except.error (PyError.attributeError name)
      | some _ => Except.ok ⟨dictSet l.storage ident (dictErase ns name)⟩

/-- A single operation issued against a `Local` by one identity. -/
inductive Op (α : Type) where
  | set (name : Name) (v : α)
  | get (name : Name)
  | del (name : Name)
deriving DecidableEq

/-- The observable outcome of one operation. -/
inductive OpResult (α : Type) where
  | done
  | value (v : α)
  | attrError (name : Name)
deriving DecidableEq

/-- Run one operation against the registry, returning the new state and the
observable outcome. -/
def step (l : Local α) (ident : Ident) : Op α → Local α × OpResult α
  | Op.set name v => (l.setattr ident name v, OpResult.done)
  | Op.get name =>
      match l.getattr ident name with
      | Except.ok v => (l, OpResult.value v)
      | Except.error _ => (l, OpResult.attrError name)
  | Op.del name =>
      match l.delattr ident name with
      | Except.ok l' => (l', OpResult.done)
      | Except.error _ => (l, OpResult.attrError name)

/-- Run a whole sequence of operations from one identity, collecting the
observable outcomes in order. -/
def run (l : Local α) (ident : Ident) : List (Op α) → Local α × List (OpResult α)
  | [] => (l, [])
  | op :: ops =>
      ((run (step l ident op).1 ident ops).1,
       (step l ident op).2 :: (run (step l ident op).1 ident ops).2)

/-- Apply a list of `setattr` writes, each tagged with the identity that
issues it (an interleaving of writers). -/
def runSets (l : Local α) : List (Ident × Name × α) → Local α
  | [] => l
  | (i, n, v) :: ws => runSets (l.setattr i n v) ws

end Local

/-! ### The reference model a single identity should observe

A plain name-to-value map, `none` while the identity has no namespace yet. -/

/-- One identity's view: `none` before the first write, then the namespace. -/
abbrev NsModel (α : Type) := Option (List (Name × α))

/-- Replay one operation against the plain map. -/
def nsStep (m : NsModel α) : Local.Op α → NsModel α × Local.OpResult α
  | Local.Op.set name v =>
      match m with
      | none => (some [(name, v)], Local.OpResult.done)
      | some ns => (some (dictSet ns name v), Local.OpResult.done)
  | Local.Op.get name =>
      match m with
      | none => (m, Local.OpResult.attrError name)
      | some ns =>
          match dictGet ns name with
          | none => (m, Local.OpResult.attrError name)
          | some v => (m, Local.OpResult.value v)
  | Local.Op.del name =>
      match m with
      | none => (m, Local.OpResult.attrError name)
      | some ns =>
          match dictGet ns name with
          | none => (m, Local.OpResult.attrError name)
          | some _ => (some (dictErase ns name), Local.OpResult.done)

/-- Replay a sequence of operations against the plain map. -/
def nsRun (m : NsModel α) : List (Local.Op α) → NsModel α × List (Local.OpResult α)
  | [] => (m, [])
  | op :: ops =>
      ((nsRun (nsStep m op).1 ops).1,
       (nsStep m op).2 :: (nsRun (nsStep m op).1 ops).2)

/-! ## `werkzeug.local`: LocalManager (RegistryManager) -/

/-- `LocalManager`: an ordered collection of managed registries. -/
structure LocalManager (α : Type) where
  locals : List (Local α)
deriving DecidableEq

namespace LocalManager

/-- `LocalManager.cleanup`: for every managed registry,
`storage.pop(ident, None)` — evict the identity's namespace, silently
skipping registries without one. -/
def cleanup (m : LocalManager α) (ident : Ident) : LocalManager α :=
  ⟨m.locals.map (fun l => ⟨dictErase l.storage ident⟩)⟩

end LocalManager

/-! ## ClosingIterator and `make_middleware`

`ClosingIterator` lives in `werkzeug/utils.py`, which is not under `src/`;
it is modelled from the spec. -/

/-- Modelled from the spec: `ClosingIterator` (werkzeug.utils, absent from
`src/`) wraps an already-produced response body together with cleanup
callbacks and runs the callbacks exactly once, after the body is exhausted
or the wrapper is closed.  The callback is a state transformer; the body is
the list of items the ferry will drain. -/
structure ClosingIterator (β σ : Type) where
  iterable : List β
  callback : σ → σ

/-- Modelled from the spec: the external ferry fully drains the wrapper —
it receives every body item and the cleanup callback then runs once. -/
def ClosingIterator.drain (ci : ClosingIterator β σ) (s : σ) : List β × σ :=
  (ci.iterable, ci.callback s)

/-- `LocalManager.make_middleware(app)` composed with the ferry: the wrapper
evaluates `app(environ, start_response)` first (Python evaluation order in
`ClosingIterator(app(environ, start_response), self.cleanup)`), so an
exception from the inner app propagates before any `ClosingIterator`
exists; on success the body is wrapped and drained, which runs
`self.cleanup` once.  The state threaded through is the manager itself. -/
def runMiddleware (m : LocalManager α) (ident : Ident)
    (app : Except String (List β)) : Except String (List β) × LocalManager α :=
  match app with
  | Except.error e => (Except.error e, m)
  | Except.ok body =>
      let ci : ClosingIterator β (LocalManager α) :=
        ⟨body, fun mgr => mgr.cleanup ident⟩
      let (items, m') := ci.drain m
      (Except.ok items, m')

/-! ## `werkzeug.contrib.sessions`

From `src/werkzeug/contrib/sessions.py`. -/

/-- A character matched by the class `[a-fA-F0-9]` of `_sha1_re`. -/
def isHexChar (c : Char) : Bool :=
  (decide ('0' ≤ c) && decide (c ≤ '9')) ||
  (decide ('a' ≤ c) && decide (c ≤ 'f')) ||
  (decide ('A' ≤ c) && decide (c ≤ 'F'))

/-- The `[a-fA-F0-9]\x7b40\x7d` part of `_sha1_re`: consume exactly `n` hex
characters, returning the remaining input, or `none` on failure. -/
def consumeHex : Nat → List Char → Option (List Char)
  | 0, cs => some cs
  | _ + 1, [] => none
  | n + 1, c :: cs => if isHexChar c then consumeHex n cs else none

/-- The final anchor of `_sha1_re` under Python `re` semantics (no
`MULTILINE`): the dollar anchor matches at the end of the string or just
before one trailing newline. -/
def matchDollar : List Char → Bool
  | [] => true
  | [c] => c == '\n'
  | _ => false

/-- `_sha1_re.match(key) is not None`: `re.match` anchors at the start,
then the pattern consumes forty hex characters and the dollar anchor must
accept the rest. -/
def sha1ReMatch (s : String) : Bool :=
  match consumeHex 40 s.data with
  | some rest => matchDollar rest
  | none => false

/-- `SessionStore.is_valid_key`. -/
def is_valid_key (key : String) : Bool := sha1ReMatch key

/-- `ModificationTrackingDict`: a dict plus a `modified` flag. -/
structure MTDict (α : Type) where
  data : List (Name × α)
  modified : Bool
deriving DecidableEq

namespace MTDict

/-- `__setitem__`, wrapped by `call_with_modification` (try/finally sets
`modified = True`). -/
def setitem (d : MTDict α) (k : Name) (v : α) : MTDict α :=
  ⟨dictSet d.data k v, true⟩

/-- `__delitem__` under `call_with_modification`: deleting an absent key
raises `KeyError`, but the finally-block still sets `modified = True`. -/
def delitem (d : MTDict α) (k : Name) : Except PyError Unit × MTDict α :=
  match dictGet d.data k with
  | none => (Except.error PyError.keyError, ⟨d.data, true⟩)
  | some _ => (Except.ok (), ⟨dictErase d.data k, true⟩)

/-- `pop` (no default) under `call_with_modification`: an absent key raises
`KeyError`; `modified` becomes `True` either way. -/
def pop (d : MTDict α) (k : Name) : Except PyError α × MTDict α :=
  match dictGet d.data k with
  | none => (Except.error PyError.keyError, ⟨d.data, true⟩)
  | some v => (Except.ok v, ⟨dictErase d.data k, true⟩)

/-- `popitem` under `call_with_modification`: an empty dict raises
`KeyError`; the embedding removes the first binding. -/
def popitem (d : MTDict α) : Except PyError (Name × α) × MTDict α :=
  match d.data with
  | [] => (Except.error PyError.keyError, ⟨d.data, true⟩)
  | kv :: rest => (Except.ok kv, ⟨rest, true⟩)

/-- `clear` under `call_with_modification`. -/
def clear (_d : MTDict α) : MTDict α := ⟨[], true⟩

/-- `setdefault` under `call_with_modification`: returns the present value,
or inserts and returns the default. -/
def setdefault (d : MTDict α) (k : Name) (v : α) : α × MTDict α :=
  match dictGet d.data k with
  | some v₀ => (v₀, ⟨d.data, true⟩)
  | none => (v, ⟨dictSet d.data k v, true⟩)

/-- `update` under `call_with_modification`: merge the other mapping in. -/
def update (d : MTDict α) (other : List (Name × α)) : MTDict α :=
  ⟨other.foldl (fun acc kv => dictSet acc kv.1 kv.2) d.data, true⟩

end MTDict

/-- `Session(data, sid, new)`: a `ModificationTrackingDict` plus the
identifier and the `new` flag; `modified` starts `False`. -/
structure Session (α : Type) where
  data : List (Name × α)
  sid : String
  new : Bool
  modified : Bool
deriving DecidableEq

/-- `Session.should_save` property: `self.modified`. -/
def Session.should_save (s : Session α) : Bool := s.modified

namespace SessionStore

/-- `SessionStore.new()`: `self.session_class({}, self.generate_key(), True)`.
`generate_key` draws on wall-clock time and OS entropy, so the freshly
generated identifier is passed in as `freshKey`. -/
def new (freshKey : String) : Session α :=
  ⟨[], freshKey, true, false⟩

/-- Base `SessionStore.get(sid)`: `self.session_class({}, sid, True)` —
no validity check, the supplied `sid` is retained as the session's sid. -/
def get (sid : String) : Session α :=
  ⟨[], sid, true, false⟩

end SessionStore

/-- The persisted files: filename -> the pickled `dict(session)` payload. -/
abbrev FileSystem (α : Type) := List (String × List (Name × α))

/-- `FilesystemSessionStore(path, filename_template)`. -/
structure FilesystemSessionStore where
  path : String
  filename_template : String
deriving DecidableEq

/-- Python `template % sid` for a template containing one `%s`. -/
def substPercentS : List Char → List Char → List Char
  | [], _ => []
  | c :: cs, arg =>
      if c == '%' then
        match cs with
        | c' :: rest => if c' == 's' then arg ++ rest
                        else c :: c' :: rest
        | [] => [c]
      else c :: substPercentS cs arg

/-- `template % sid` on strings. -/
def percentFormat (template fill : String) : String :=
  String.mk (substPercentS template.data fill.data)

namespace FilesystemSessionStore

/-- `get_session_filename`: `path.join(self.path, self.filename_template %
sid)` (second component relative, so the join is concatenation with a
separator). -/
def get_session_filename (store : FilesystemSessionStore) (sid : String) :
    String :=
  store.path ++ "/" ++ percentFormat store.filename_template sid

/-- `FilesystemSessionStore.save`: write `dict(session)` to the session's
file (whole-file replace). -/
def save (store : FilesystemSessionStore) (fs : FileSystem α)
    (session : Session α) : FileSystem α :=
  dictSet fs (store.get_session_filename session.sid) session.data

/-- `FilesystemSessionStore.get`: `if not self.is_valid_key(sid) or not
path.exists(fn): return self.new()`, else unpickle the file and return
`self.session_class(data, sid, False)`.  Total — never raises for an
unknown or malformed identifier. -/
def get (store : FilesystemSessionStore) (fs : FileSystem α)
    (sid freshKey : String) : Session α :=
  if is_valid_key sid then
    match dictGet fs (store.get_session_filename sid) with
    | some data => ⟨data, sid, false, false⟩
    | none => SessionStore.new freshKey
  else SessionStore.new freshKey

/-- Inherited `SessionStore.save_if_modified`: `if session.should_save:
self.save(session)`, with `save` dispatching to the filesystem store. -/
def save_if_modified (store : FilesystemSessionStore) (fs : FileSystem α)
    (session : Session α) : FileSystem α :=
  if session.should_save then store.save fs session else fs

end FilesystemSessionStore

/-! ## `SessionMiddleware` cookie injection

`dump_cookie` and `load_cookie` live in `werkzeug/utils.py`, absent from
`src/`; what `src` fixes is the argument list the middleware passes. -/

/-- An untyped Python value, enough to capture the middleware's
configuration fields and the arguments it passes on. -/
inductive PyVal where
  | pynone
  | str (s : String)
  | int (n : Int)
  | bool (b : Bool)
deriving DecidableEq

/-- `SessionMiddleware.__init__` configuration fields. -/
structure SessionMiddleware where
  cookie_name : String
  cookie_age : PyVal
  cookie_path : PyVal
  cookie_domain : PyVal
  cookie_secure : PyVal
  cookie_httponly : PyVal
  environ_key : String
deriving DecidableEq

/-- The `__init__` defaults: `cookie_name='session_id'`, `cookie_age=None`,
`cookie_path=None`, `cookie_domain=None`, `cookie_secure=None`,
`cookie_httponly=False`, `environ_key='werkzeug.session'`. -/
def defaultMiddleware : SessionMiddleware :=
  ⟨"session_id", PyVal.pynone, PyVal.pynone, PyVal.pynone, PyVal.pynone,
   PyVal.bool false, "werkzeug.session"⟩

/-- `expires = None; if self.cookie_age is not None: expires = time() +
self.cookie_age`. -/
def cookieExpires (cookie_age : PyVal) (now : Int) : PyVal :=
  match cookie_age with
  | PyVal.int age => PyVal.int (now + age)
  | _ => PyVal.pynone

/-- The positional argument list the source passes to `dump_cookie` inside
`injecting_start_response`: `dump_cookie(self.cookie_name, self.cookie_age,
expires, self.cookie_path, self.cookie_domain, self.cookie_secure,
self.cookie_httponly)`.  Modelled from the spec: `dump_cookie`
(werkzeug.utils, absent from `src/`) is a pure serializer of the arguments
it receives, so the produced `Set-Cookie` header is a function of exactly
this list. -/
def sessionCookieArgs (mw : SessionMiddleware) (now : Int) : List PyVal :=
  [PyVal.str mw.cookie_name, mw.cookie_age, cookieExpires mw.cookie_age now,
   mw.cookie_path, mw.cookie_domain, mw.cookie_secure, mw.cookie_httponly]

/-- `injecting_start_response` appends a `Set-Cookie` header exactly when
`session.should_save`; the header is built from `sessionCookieArgs`. -/
def setCookieCall (mw : SessionMiddleware) (s : Session α) (now : Int) :
    Option (List PyVal) :=
  if s.should_save then some (sessionCookieArgs mw now) else none

/-- A 40-character lowercase hex string, the shape of a generated key. -/
def hex40a : String := String.mk (List.replicate 40 'a')

/-! ## Lemmas about the registry embedding -/

theorem step_proj (l : Local α) (i : Ident) (op : Local.Op α) :
    dictGet (Local.step l i op).1.storage i = (nsStep (dictGet l.storage i) op).1
    ∧ (Local.step l i op).2 = (nsStep (dictGet l.storage i) op).2 := by
  cases op with
  | set n v =>
      cases h : dictGet l.storage i with
      | none => simp [Local.step, Local.setattr, nsStep, h, dictGet_dictSet]
      | some ns => simp [Local.step, Local.setattr, nsStep, h, dictGet_dictSet]
  | get n =>
      cases h : dictGet l.storage i with
      | none => simp [Local.step, Local.getattr, nsStep, h]
      | some ns =>
          cases h₂ : dictGet ns n with
          | none => simp [Local.step, Local.getattr, nsStep, h, h₂]
          | some v => simp [Local.step, Local.getattr, nsStep, h, h₂]
  | del n =>
      cases h : dictGet l.storage i with
      | none => simp [Local.step, Local.delattr, nsStep, h]
      | some ns =>
          cases h₂ : dictGet ns n with
          | none => simp [Local.step, Local.delattr, nsStep, h, h₂]
          | some v =>
              simp [Local.step, Local.delattr, nsStep, h, h₂, dictGet_dictSet]

theorem run_nsRun (l : Local α) (i : Ident) (ops : List (Local.Op α)) :
    dictGet (Local.run l i ops).1.storage i
      = (nsRun (dictGet l.storage i) ops).1
    ∧ (Local.run l i ops).2 = (nsRun (dictGet l.storage i) ops).2 := by
  induction ops generalizing l with
  | nil => simp [Local.run, nsRun]
  | cons op ops ih =>
      have hs := step_proj l i op
      have ih' := ih (Local.step l i op).1
      constructor
      · show dictGet (Local.run (Local.step l i op).1 i ops).1.storage i = _
        rw [ih'.1, hs.1]
        rfl
      · show (Local.step l i op).2 :: (Local.run (Local.step l i op).1 i ops).2 = _
        rw [ih'.2, hs.1, hs.2]
        rfl

theorem setattr_proj_ne (l : Local α) (i j : Ident) (n : Name) (v : α)
    (h : i ≠ j) :
    dictGet (Local.setattr l i n v).storage j = dictGet l.storage j := by
  unfold Local.setattr
  cases dictGet l.storage i <;> simp [dictGet_dictSet, h]

theorem getattr_proj (l l₂ : Local α) (j : Ident) (m : Name)
    (h : dictGet l.storage j = dictGet l₂.storage j) :
    Local.getattr l j m = Local.getattr l₂ j m := by
  unfold Local.getattr
  rw [h]

theorem runSets_proj (l : Local α) (ws : List (Ident × Name × α)) (j : Ident)
    (h : ∀ w ∈ ws, w.1 ≠ j) :
    dictGet (Local.runSets l ws).storage j = dictGet l.storage j := by
  induction ws generalizing l with
  | nil => rfl
  | cons w ws ih =>
      obtain ⟨i, n, v⟩ := w
      show dictGet (Local.runSets (l.setattr i n v) ws).storage j = _
      rw [ih _ (fun w hw => h w (List.mem_cons_of_mem _ hw)),
          setattr_proj_ne _ _ _ _ _ (h _ (List.mem_cons_self _ _))]

theorem getattr_setattr_self (l : Local α) (i : Ident) (n : Name) (v : α) :
    Local.getattr (Local.setattr l i n v) i n = Except.ok v := by
  unfold Local.setattr Local.getattr
  cases dictGet l.storage i <;> simp [dictGet_dictSet, dictGet]

theorem delattr_keeps_ident (l l' : Local α) (i : Ident) (n : Name)
    (h : Local.delattr l i n = Except.ok l') :
    (dictGet l'.storage i).isSome = true := by
  cases h₁ : dictGet l.storage i with
  | none => simp [Local.delattr, h₁] at h
  | some ns =>
      cases h₂ : dictGet ns n with
      | none => simp [Local.delattr, h₁, h₂] at h
      | some v =>
          simp [Local.delattr, h₁, h₂] at h
          rw [← h]
          simp [dictGet_dictSet]

/-! ## Lemmas about the identifier format check -/

theorem consumeHex_eq_some (n : Nat) (cs rest : List Char) :
    consumeHex n cs = some rest ↔
      n ≤ cs.length ∧ (cs.take n).all isHexChar = true ∧ rest = cs.drop n := by
  induction n generalizing cs with
  | zero => simp [consumeHex, eq_comm]
  | succ n ih =>
      cases cs with
      | nil => simp [consumeHex]
      | cons c cs =>
          by_cases hc : isHexChar c = true
          · simp [consumeHex, hc, ih, Nat.succ_le_succ_iff]
          · simp [consumeHex, hc]

theorem matchDollar_eq_true (cs : List Char) :
    matchDollar cs = true ↔ cs = [] ∨ cs = ['\n'] := by
  match cs with
  | [] => simp [matchDollar]
  | [c] => simp [matchDollar]
  | c :: c₂ :: rest => simp [matchDollar]

/-! ## The claims -/

/-- Claim C4: every sequence of set/get/delete operations issued against a
`Local` from a single execution identity observes exactly the results of
replaying that sequence against a plain name-to-value map (absent until the
first write creates it); get and delete fail with `AttributeError` exactly
when the identity has no namespace yet or the name is absent from it; and a
successful delete removes only the name, leaving the identity's namespace
entry in the registry even if it became empty. -/
theorem claim4_single_identity_replay {α : Type} (l : Local α) (ident : Ident)
    (ops : List (Local.Op α)) (l₀ l₁ : Local α) (n : Name)
    (hdel : Local.delattr l₀ ident n = Except.ok l₁) :
    (Local.run l ident ops).2 = (nsRun (dictGet l.storage ident) ops).2
    ∧ dictGet (Local.run l ident ops).1.storage ident
        = (nsRun (dictGet l.storage ident) ops).1
    ∧ (dictGet l₁.storage ident).isSome = true :=
  ⟨(run_nsRun l ident ops).2, (run_nsRun l ident ops).1,
   delattr_keeps_ident l₀ l₁ ident n hdel⟩

/-- Witness for C4 at a concrete input: deleting the last attribute of
identity 0 succeeds and still leaves identity 0 bound in the registry. -/
theorem claim4_witness :
    Local.delattr (⟨[(0, [("a", 1)])]⟩ : Local Nat) 0 "a" = Except.ok ⟨[(0, [])]⟩
    ∧ (dictGet (Local.storage (⟨[(0, [])]⟩ : Local Nat)) 0).isSome = true := by
  refine ⟨rfl, ?_⟩
  exact (claim4_single_identity_replay (⟨[]⟩ : Local Nat) 0 []
    (⟨[(0, [("a", 1)])]⟩ : Local Nat) ⟨[(0, [])]⟩ "a" rfl).2.2

/-- Claim C5: for two distinct identities, an interleaving of `setattr`
writes by other identities is invisible to a reader: its `getattr` results
are unchanged; and a write is visible to a subsequent `getattr` by the
writing identity itself. -/
theorem claim5_identity_isolation {α : Type} (l : Local α)
    (writes : List (Ident × Name × α)) (j : Ident) (m : Name)
    (i : Ident) (n : Name) (v : α)
    (hj : ∀ w ∈ writes, w.1 ≠ j) :
    Local.getattr (Local.runSets l writes) j m = Local.getattr l j m
    ∧ Local.getattr (Local.setattr l i n v) i n = Except.ok v :=
  ⟨getattr_proj _ _ _ _ (runSets_proj l writes j hj),
   getattr_setattr_self l i n v⟩

/-- Witness for C5 at a concrete input: identity 1 writes, identity 0 sees
nothing; identity 2 reads back its own write. -/
theorem claim5_witness :
    (∀ w ∈ ([(1, "x", 5)] : List (Ident × Name × Nat)), w.1 ≠ 0)
    ∧ (Local.getattr (Local.runSets (⟨[]⟩ : Local Nat) [(1, "x", 5)]) 0 "x"
        = Local.getattr (⟨[]⟩ : Local Nat) 0 "x"
      ∧ Local.getattr (Local.setattr (⟨[]⟩ : Local Nat) 2 "y" 7) 2 "y"
          = Except.ok 7) :=
  ⟨by decide,
   claim5_identity_isolation (⟨[]⟩ : Local Nat) [(1, "x", 5)] 0 "x" 2 "y" 7
     (by decide)⟩

/-- Claim C6: `LocalManager.cleanup` evicts the current identity's entry
from every managed registry, a second consecutive cleanup is a no-op, and a
registry with no entry for the identity is left entirely unchanged (the
skip is silent — `cleanup` is total and raises nothing). -/
theorem claim6_cleanup_idempotent {α : Type} (m : LocalManager α) (i : Ident)
    (l : Local α) (hl : l ∈ (LocalManager.cleanup m i).locals)
    (l₀ : Local α) (habs : dictGet l₀.storage i = none) :
    dictGet l.storage i = none
    ∧ LocalManager.cleanup (LocalManager.cleanup m i) i
        = LocalManager.cleanup m i
    ∧ (⟨dictErase l₀.storage i⟩ : Local α) = l₀ := by
  refine ⟨?_, ?_, ?_⟩
  · obtain ⟨l₁, hmem, rfl⟩ := List.mem_map.mp hl
    rw [dictGet_dictErase]
    simp
  · unfold LocalManager.cleanup
    simp only [List.map_map]
    congr 1
    apply List.map_congr_left
    intro a ha
    show Local.mk (dictErase (dictErase a.storage i) i)
          = Local.mk (dictErase a.storage i)
    rw [dictErase_dictErase]
  · rw [dictErase_of_dictGet_none _ _ habs]

/-- Witness for C6 at a concrete input: a manager with one registry holding
an entry for identity 0. -/
theorem claim6_witness :
    ((⟨[]⟩ : Local Nat)
        ∈ (LocalManager.cleanup (⟨[⟨[(0, [("a", 1)])]⟩]⟩ : LocalManager Nat)
            0).locals)
    ∧ dictGet (Local.storage (⟨[]⟩ : Local Nat)) 0 = none
    ∧ LocalManager.cleanup
        (LocalManager.cleanup (⟨[⟨[(0, [("a", 1)])]⟩]⟩ : LocalManager Nat) 0) 0
        = LocalManager.cleanup (⟨[⟨[(0, [("a", 1)])]⟩]⟩ : LocalManager Nat) 0 := by
  refine ⟨by decide, ?_, ?_⟩
  · exact (claim6_cleanup_idempotent
      (⟨[⟨[(0, [("a", 1)])]⟩]⟩ : LocalManager Nat) 0 ⟨[]⟩ (by decide)
      (⟨[]⟩ : Local Nat) rfl).1
  · exact (claim6_cleanup_idempotent
      (⟨[⟨[(0, [("a", 1)])]⟩]⟩ : LocalManager Nat) 0 ⟨[]⟩ (by decide)
      (⟨[]⟩ : Local Nat) rfl).2.1

/-- Claim C1 is false as stated: with one managed registry holding an entry
for the current identity 0, an inner handler that raises before producing a
body propagates the exception and `cleanup` does not run — the identity's
entry survives in the registry.  In the source,
`ClosingIterator(app(environ, start_response), self.cleanup)` evaluates the
inner app call first, so when it raises no wrapper exists and the cleanup
callback is never registered. -/
theorem claim1_counterexample :
    (runMiddleware (⟨[⟨[(0, [("request", 1)])]⟩]⟩ : LocalManager Nat) 0
        (Except.error "boom" : Except String (List Nat))).1
      = Except.error "boom"
    ∧ (runMiddleware (⟨[⟨[(0, [("request", 1)])]⟩]⟩ : LocalManager Nat) 0
        (Except.error "boom" : Except String (List Nat))).2
      = ⟨[⟨[(0, [("request", 1)])]⟩]⟩
    ∧ ¬ (∀ l ∈ (runMiddleware (⟨[⟨[(0, [("request", 1)])]⟩]⟩ : LocalManager Nat)
            0 (Except.error "boom" : Except String (List Nat))).2.locals,
          dictGet (Local.storage l) 0 = none) :=
  ⟨rfl, rfl, by decide⟩

/-- Claim C1 amended: the cleanup guarantee of `make_middleware` holds on
the success path — when the inner handler returns a body, draining the
`ClosingIterator` runs `cleanup`, which evicts the identity's entry from
every managed registry; when the inner handler raises before producing a
body, the exception propagates unchanged and cleanup does not run, leaving
every managed registry exactly as it was. -/
theorem claim1_make_middleware_cleanup {α β : Type} (m : LocalManager α)
    (i : Ident) (body : List β) (e : String) (l : Local α)
    (hl : l ∈ (runMiddleware m i (Except.ok body)).2.locals) :
    runMiddleware m i (Except.ok body)
        = (Except.ok body, LocalManager.cleanup m i)
    ∧ dictGet l.storage i = none
    ∧ runMiddleware (α := α) (β := β) m i (Except.error e)
        = (Except.error e, m) := by
  refine ⟨rfl, ?_, rfl⟩
  have hcl : (runMiddleware m i (Except.ok body)).2
      = LocalManager.cleanup m i := rfl
  rw [hcl] at hl
  obtain ⟨l₁, hmem, rfl⟩ := List.mem_map.mp hl
  rw [dictGet_dictErase]
  simp

/-- Witness for the amended C1 at a concrete input. -/
theorem claim1_witness :
    ((⟨[]⟩ : Local Nat)
        ∈ (runMiddleware (⟨[⟨[(0, [("r", 1)])]⟩]⟩ : LocalManager Nat) 0
            (Except.ok [9] : Except String (List Nat))).2.locals)
    ∧ (runMiddleware (⟨[⟨[(0, [("r", 1)])]⟩]⟩ : LocalManager Nat) 0
          (Except.ok [9] : Except String (List Nat))
        = (Except.ok [9], LocalManager.cleanup ⟨[⟨[(0, [("r", 1)])]⟩]⟩ 0)
      ∧ dictGet (Local.storage (⟨[]⟩ : Local Nat)) 0 = none
      ∧ runMiddleware (⟨[⟨[(0, [("r", 1)])]⟩]⟩ : LocalManager Nat) 0
          (Except.error "x" : Except String (List Nat))
        = (Except.error "x", ⟨[⟨[(0, [("r", 1)])]⟩]⟩)) :=
  ⟨by decide,
   claim1_make_middleware_cleanup (⟨[⟨[(0, [("r", 1)])]⟩]⟩ : LocalManager Nat)
     0 [9] "x" ⟨[]⟩ (by decide)⟩

/-- Claim C2 fails on the code (code bug): when the session should be
saved, `injecting_start_response` builds the header from
`dump_cookie(self.cookie_name, self.cookie_age, expires, self.cookie_path,
self.cookie_domain, self.cookie_secure, self.cookie_httponly)` —
`session.sid` is not among the arguments, so whatever `dump_cookie` does,
the cookie cannot carry the session identifier; with the default
configuration the value slot receives `None` (the `cookie_age` default).
The source also calls `headers.append` with two arguments where a single
pair is required, so the append itself raises `TypeError` at runtime. -/
theorem claim2_cookie_value_bug :
    Session.should_save (⟨[], hex40a, true, true⟩ : Session Nat) = true
    ∧ setCookieCall defaultMiddleware (⟨[], hex40a, true, true⟩ : Session Nat) 0
        = some [PyVal.str "session_id", PyVal.pynone, PyVal.pynone,
                PyVal.pynone, PyVal.pynone, PyVal.pynone, PyVal.bool false]
    ∧ PyVal.str hex40a ∉ sessionCookieArgs defaultMiddleware 0 :=
  ⟨rfl, rfl, by decide⟩

/-- Claim C3 is false as stated for the base class: `SessionStore.get`
performs no format check and returns a session retaining the supplied
malformed identifier — not an equivalent of `new()`, whose freshly
generated identifier (a sha1 hexdigest) always passes the 40-hex check. -/
theorem claim3_counterexample :
    (SessionStore.get "zz" : Session Nat).sid = "zz"
    ∧ is_valid_key ((SessionStore.get "zz" : Session Nat).sid) = false
    ∧ (SessionStore.get "zz" : Session Nat).new = true :=
  ⟨rfl, by decide, rfl⟩

/-- Claim C3 amended: `FilesystemSessionStore.get` never raises; a sid that
fails the 40-hex check, or one with no backing file, yields an equivalent
of `new()` (freshly generated identifier, empty namespace, `new = true`);
otherwise the persisted namespace is loaded into a session with
`new = false`.  The base `SessionStore.get` also never raises but performs
no format check: it returns an empty session with `new = true` that carries
the supplied sid unchanged. -/
theorem claim3_get_amended {α : Type} (store : FilesystemSessionStore)
    (fs : FileSystem α) (sid freshKey : String) (data : List (Name × α)) :
    (is_valid_key sid = false →
      FilesystemSessionStore.get store fs sid freshKey
        = SessionStore.new freshKey)
    ∧ (dictGet fs (store.get_session_filename sid) = none →
      FilesystemSessionStore.get store fs sid freshKey
        = SessionStore.new freshKey)
    ∧ (is_valid_key sid = true →
      dictGet fs (store.get_session_filename sid) = some data →
      FilesystemSessionStore.get store fs sid freshKey
        = ⟨data, sid, false, false⟩)
    ∧ (SessionStore.get sid : Session α) = ⟨[], sid, true, false⟩ := by
  refine ⟨?_, ?_, ?_, rfl⟩
  · intro h
    simp [FilesystemSessionStore.get, h]
  · intro h
    by_cases hv : is_valid_key sid = true
    · simp [FilesystemSessionStore.get, hv, h]
    · simp [FilesystemSessionStore.get, hv]
  · intro hv h
    simp [FilesystemSessionStore.get, hv, h]

/-- Witness for the amended C3 at a concrete input: the malformed sid
`"zz"` against an empty filesystem yields the fresh session. -/
theorem claim3_witness :
    is_valid_key "zz" = false
    ∧ FilesystemSessionStore.get
        (⟨"/tmp", "werkzeug_%s.sess"⟩ : FilesystemSessionStore)
        ([] : FileSystem Nat) "zz" hex40a
      = SessionStore.new hex40a :=
  ⟨by decide,
   (claim3_get_amended (⟨"/tmp", "werkzeug_%s.sess"⟩ : FilesystemSessionStore)
     ([] : FileSystem Nat) "zz" hex40a []).1 (by decide)⟩

/-- Claim C7: for a session whose sid passes the format check (as every
sid produced by `new()` does), `save` followed by `get` on the same sid
returns a session with the saved key-value contents and `new = false`
(and a clean `modified` flag, as `__init__` sets it). -/
theorem claim7_filesystem_roundtrip {α : Type} (store : FilesystemSessionStore)
    (fs : FileSystem α) (s : Session α) (freshKey : String)
    (h : is_valid_key s.sid = true) :
    FilesystemSessionStore.get store (FilesystemSessionStore.save store fs s)
        s.sid freshKey
      = ⟨s.data, s.sid, false, false⟩ := by
  simp [FilesystemSessionStore.get, FilesystemSessionStore.save, h,
        dictGet_dictSet]

/-- Witness for C7 at a concrete input: a 40-hex sid round trips through an
initially empty filesystem. -/
theorem claim7_witness :
    is_valid_key hex40a = true
    ∧ FilesystemSessionStore.get
        (⟨"/tmp", "werkzeug_%s.sess"⟩ : FilesystemSessionStore)
        (FilesystemSessionStore.save ⟨"/tmp", "werkzeug_%s.sess"⟩
          ([] : FileSystem Nat) ⟨[("counter", 3)], hex40a, true, true⟩)
        hex40a "f"
      = ⟨[("counter", 3)], hex40a, false, false⟩ :=
  ⟨by decide,
   claim7_filesystem_roundtrip (⟨"/tmp", "werkzeug_%s.sess"⟩ : FilesystemSessionStore)
     ([] : FileSystem Nat) ⟨[("counter", 3)], hex40a, true, true⟩ "f" (by decide)⟩

/-- Claim C8 is false as stated: under Python `re` semantics the dollar
anchor of `_sha1_re` also matches just before one trailing newline, so a
string of forty hex characters followed by a newline — 41 characters, one
of them not hex — is accepted by `is_valid_key`. -/
theorem claim8_counterexample :
    is_valid_key (hex40a ++ "\n") = true
    ∧ (hex40a ++ "\n").data.length = 41
    ∧ isHexChar '\n' = false :=
  ⟨by decide, by decide, by decide⟩

/-- Claim C8 amended: `is_valid_key key` is true iff `key` consists of
exactly forty hexadecimal characters, or of forty hexadecimal characters
followed by a single trailing newline (an artifact of the dollar anchor in
`_sha1_re` under Python `re` semantics); every other string — any other
length, or a non-hex character among the first forty — yields false. -/
theorem claim8_is_valid_key_amended (s : String) :
    is_valid_key s = true ↔
      (s.data.length = 40 ∧ s.data.all isHexChar = true)
      ∨ (s.data.length = 41 ∧ (s.data.take 40).all isHexChar = true
          ∧ s.data.drop 40 = ['\n']) := by
  unfold is_valid_key sha1ReMatch
  cases h : consumeHex 40 s.data with
  | none =>
      constructor
      · intro hfalse
        cases hfalse
      · rintro (⟨hlen, hall⟩ | ⟨hlen, hall, hdrop⟩)
        · have : consumeHex 40 s.data = some (s.data.drop 40) := by
            refine (consumeHex_eq_some 40 s.data (s.data.drop 40)).mpr
              ⟨by omega, ?_, rfl⟩
            rwa [List.take_of_length_le (by omega)]
          rw [this] at h
          cases h
        · have : consumeHex 40 s.data = some (s.data.drop 40) := by
            exact (consumeHex_eq_some 40 s.data (s.data.drop 40)).mpr
              ⟨by omega, hall, rfl⟩
          rw [this] at h
          cases h
  | some rest =>
      obtain ⟨hle, htake, hrest⟩ := (consumeHex_eq_some 40 s.data rest).mp h
      subst hrest
      rw [matchDollar_eq_true]
      constructor
      · rintro (hnil | hnl)
        · left
          have hlen : s.data.length = 40 := by
            have := List.drop_eq_nil_iff.mp hnil
            omega
          refine ⟨hlen, ?_⟩
          rwa [List.take_of_length_le (by omega)] at htake
        · right
          have hlen : s.data.length = 41 := by
            have h1 : (s.data.drop 40).length = 1 := by
              rw [hnl]
              rfl
            rw [List.length_drop] at h1
            omega
          exact ⟨hlen, htake, hnl⟩
      · rintro (⟨hlen, _⟩ | ⟨_, _, hdrop⟩)
        · left
          exact List.drop_eq_nil_iff.mpr (by omega)
        · right
          exact hdrop

/-- Claim C9: `save_if_modified` is a no-op for a session with
`modified = false` (the filesystem is untouched) and performs exactly
`save` for a session with `modified = true` (the session's file afterwards
holds the session's contents). -/
theorem claim9_save_if_modified {α : Type} (store : FilesystemSessionStore)
    (fs : FileSystem α) (s : Session α) :
    (s.modified = false →
      FilesystemSessionStore.save_if_modified store fs s = fs)
    ∧ (s.modified = true →
      FilesystemSessionStore.save_if_modified store fs s
          = FilesystemSessionStore.save store fs s
      ∧ dictGet (FilesystemSessionStore.save_if_modified store fs s)
            (store.get_session_filename s.sid) = some s.data) := by
  constructor
  · intro h
    simp [FilesystemSessionStore.save_if_modified, Session.should_save, h]
  · intro h
    refine ⟨?_, ?_⟩
    · simp [FilesystemSessionStore.save_if_modified, Session.should_save, h]
    · simp [FilesystemSessionStore.save_if_modified, Session.should_save, h,
            FilesystemSessionStore.save, dictGet_dictSet]

/-- Witness for C9 at a concrete input: an unmodified session triggers no
save against an empty filesystem. -/
theorem claim9_witness :
    (⟨[("k", 1)], hex40a, false, false⟩ : Session Nat).modified = false
    ∧ FilesystemSessionStore.save_if_modified
        (⟨"/tmp", "werkzeug_%s.sess"⟩ : FilesystemSessionStore)
        ([] : FileSystem Nat) ⟨[("k", 1)], hex40a, false, false⟩ = [] :=
  ⟨rfl,
   (claim9_save_if_modified (⟨"/tmp", "werkzeug_%s.sess"⟩ : FilesystemSessionStore)
     ([] : FileSystem Nat) ⟨[("k", 1)], hex40a, false, false⟩).1 rfl⟩

/-- Claim C10: every mutating operation of `ModificationTrackingDict` sets
`modified = true`, including when the operation itself raises — deleting or
popping an absent key raises `KeyError` yet leaves `modified = true` (the
`call_with_modification` wrapper sets the flag in a finally-block). -/
theorem claim10_modified_even_on_raise {α : Type} (d : MTDict α)
    (k k₂ : Name) (v : α) (other : List (Name × α))
    (habs : dictGet d.data k = none) :
    (MTDict.setitem d k₂ v).modified = true
    ∧ ((MTDict.delitem d k₂).2).modified = true
    ∧ ((MTDict.pop d k₂).2).modified = true
    ∧ ((MTDict.popitem d).2).modified = true
    ∧ (MTDict.clear d).modified = true
    ∧ ((MTDict.setdefault d k₂ v).2).modified = true
    ∧ (MTDict.update d other).modified = true
    ∧ (MTDict.delitem d k).1 = Except.error PyError.keyError
    ∧ ((MTDict.delitem d k).2).modified = true
    ∧ (MTDict.pop d k).1 = Except.error PyError.keyError := by
  refine ⟨rfl, ?_, ?_, ?_, rfl, ?_, rfl, ?_, ?_, ?_⟩
  · unfold MTDict.delitem
    cases dictGet d.data k₂ <;> rfl
  · unfold MTDict.pop
    cases dictGet d.data k₂ <;> rfl
  · unfold MTDict.popitem
    cases d.data <;> rfl
  · unfold MTDict.setdefault
    cases dictGet d.data k₂ <;> rfl
  · simp [MTDict.delitem, habs]
  · simp [MTDict.delitem, habs]
  · simp [MTDict.pop, habs]

/-- Witness for C10 at a concrete input: deleting a key from an empty,
unmodified dict raises `KeyError` and still marks the dict modified. -/
theorem claim10_witness :
    dictGet (MTDict.data (⟨[], false⟩ : MTDict Nat)) "missing" = none
    ∧ (MTDict.delitem (⟨[], false⟩ : MTDict Nat) "missing").1
        = Except.error PyError.keyError
    ∧ ((MTDict.delitem (⟨[], false⟩ : MTDict Nat) "missing").2).modified
        = true := by
  have h := claim10_modified_even_on_raise (⟨[], false⟩ : MTDict Nat)
    "missing" "x" 0 [] rfl
  exact ⟨rfl, h.2.2.2.2.2.2.2.1, h.2.2.2.2.2.2.2.2.1⟩

end Werkzeug
